import Mathlib

/-
Verification of the core data model and pipeline contracts of the website
migration platform (frontend types in
src/website-migration-platform/frontend/src/types/index.ts, the API client in
src/website-migration-platform/frontend/src/lib/api.ts, and the dashboard page
bundled with the types file).  The backend pipeline (extractor, converter,
similarity checker, orchestrator) is documented in the repository but its
source is not present; those parts are modelled from the specification, as
marked on each definition.
-/

namespace WMP

/-! ### Migration status (src/types/index.ts lines 9-16) -/

/-- The `MigrationStatus` union type of src/types/index.ts (lines 9-16):
`pending | extracting | analyzing | converting | validating | completed | failed`. -/
inductive MigrationStatus where
  | pending
  | extracting
  | analyzing
  | converting
  | validating
  | completed
  | failed
deriving DecidableEq, Fintype

/-- The seven status strings exactly as written in the `MigrationStatus`
union of src/types/index.ts. -/
def migrationStatusValues : List String :=
  ["pending", "extracting", "analyzing", "converting", "validating", "completed", "failed"]

/-- All constructors of `MigrationStatus`, in source order. -/
def allStatuses : List MigrationStatus :=
  [.pending, .extracting, .analyzing, .converting, .validating, .completed, .failed]

/-- The string each status serializes to (the union members of the source). -/
def statusString : MigrationStatus → String
  | .pending => "pending"
  | .extracting => "extracting"
  | .analyzing => "analyzing"
  | .converting => "converting"
  | .validating => "validating"
  | .completed => "completed"
  | .failed => "failed"

/-- Position of a status in the pipeline order
`pending → extracting → analyzing → converting → validating → {completed|failed}`
(spec §4.6); the two terminal states share the final position. -/
def stageIndex : MigrationStatus → Nat
  | .pending => 0
  | .extracting => 1
  | .analyzing => 2
  | .converting => 3
  | .validating => 4
  | .completed => 5
  | .failed => 5

/-- The successor stage of each non-terminal status on the success path
(spec §4.6); terminal states map to themselves. -/
def nextStage : MigrationStatus → MigrationStatus
  | .pending => .extracting
  | .extracting => .analyzing
  | .analyzing => .converting
  | .converting => .validating
  | .validating => .completed
  | .completed => .completed
  | .failed => .failed

/-- Modelled from the spec: the orchestrator's transition relation (spec §4.6,
the orchestrator source is not in the repository snapshot).  A migration moves
to the next stage in order, may retry the current active stage, and any active
stage may move to `failed` on a fatal error; `completed` and `failed` are
terminal. -/
def canTransition : MigrationStatus → MigrationStatus → Bool
  | .pending, .extracting => true
  | .extracting, .analyzing => true
  | .analyzing, .converting => true
  | .converting, .validating => true
  | .validating, .completed => true
  | .pending, .failed => true
  | .extracting, .failed => true
  | .analyzing, .failed => true
  | .converting, .failed => true
  | .validating, .failed => true
  | .extracting, .extracting => true
  | .analyzing, .analyzing => true
  | .converting, .converting => true
  | .validating, .validating => true
  | _, _ => false

/-! ### Serialized record shapes (src/types/index.ts, src/lib/api.ts) -/

/-- Field names of the `Asset` interface of src/types/index.ts (lines 137-149),
in declaration order. -/
def assetFieldNames : List String :=
  ["id", "type", "original_url", "local_path", "s3_url", "width", "height",
   "size", "mime_type", "alt_text", "metadata"]

/-- Top-level field names of the `SimilarityReport` interface of
src/types/index.ts (lines 257-268), the type returned by
`getSimilarityReport` in src/lib/api.ts (lines 112-117). -/
def similarityReportFieldNames : List String :=
  ["migration_id", "similarity_score", "report"]

/-- Field names of the nested `report` object of `SimilarityReport`
(src/types/index.ts lines 260-267), in declaration order. -/
def reportObjectFieldNames : List String :=
  ["overall_score", "meets_target", "target_score", "scores", "details", "recommendations"]

/-- Field names of the `SimilarityScores` interface of src/types/index.ts
(lines 249-255): the five named sub-metrics. -/
def similarityScoresFieldNames : List String :=
  ["visual", "structural", "content", "asset", "semantic"]

/-- Field names of each sub-metric entry of `SimilarityScores`
(src/types/index.ts: `{ score: number; details?: any }`). -/
def metricEntryFieldNames : List String :=
  ["score", "details"]

/-- The top-level shape asserted by the specification for the externally
exposed SimilarityReport (spec §6): the five report fields at top level,
with no wrapper. -/
def specClaimedReportFieldNames : List String :=
  ["overall_score", "meets_target", "target_score", "scores", "recommendations"]

/-! ### Dashboard similarity badge (dashboard page bundled in src/types/index.ts,
`MigrationRow`, lines 543-551) -/

/-- JavaScript truthiness of the optional numeric field
`migration.similarity_score` (`number | undefined`): `undefined` and `0` are
falsy, every other score in [0,1] is truthy. -/
def jsTruthy : Option ℚ → Bool
  | none => false
  | some v => decide (v ≠ 0)

/-- The percentage text of the badge:
`(migration.similarity_score * 100).toFixed(0) + "%"` for scores with at most
two decimal places (toFixed(0) rounds half away from zero; `round` on a
nonnegative score agrees). -/
def formatSimilarityPct (v : ℚ) : String :=
  toString (round (v * 100)) ++ "%"

/-- The similarity badge of `MigrationRow`:
`{migration.similarity_score && (<div> ... {(migration.similarity_score * 100).toFixed(0)}% ... </div>)}`.
The badge subtree is rendered only when the guard is truthy; otherwise no
similarity value is displayed. -/
def renderSimilarityBadge (similarity_score : Option ℚ) : Option String :=
  if jsTruthy similarity_score then
    some (formatSimilarityPct (similarity_score.getD 0))
  else
    none

/-! ### Similarity checker (modelled from spec §4.5; the checker source
`backend/core/ai/similarity_checker.py` is not in the repository snapshot) -/

/-- The five similarity metrics of spec §4.5. -/
inductive Metric where
  | visual
  | structural
  | content
  | asset
  | semantic
deriving DecidableEq, Fintype

/-- All five metrics, in spec order. -/
def allMetrics : List Metric :=
  [.visual, .structural, .content, .asset, .semantic]

/-- Modelled from the spec: the fixed per-metric weight (spec §4.5 "a fixed
weight is assigned to each metric (weights sum to 1)"; §9 leaves the exact
values open and directs the implementer to fixed defaults, e.g. equal
weighting, which this model adopts). -/
def metricWeight : Metric → ℚ := fun _ => 1/5

/-- The metrics that could actually be computed in a run: those whose score
is present. -/
def usedMetrics (scores : Metric → Option ℚ) : List Metric :=
  allMetrics.filter (fun m => (scores m).isSome)

/-- The metrics excluded from a run: those whose score is absent. -/
def excludedMetrics (scores : Metric → Option ℚ) : List Metric :=
  allMetrics.filter (fun m => (scores m).isNone)

/-- The computed score of a metric (0 as the irrelevant default for an
excluded metric, which never enters any sum over `usedMetrics`). -/
def scoreOf (scores : Metric → Option ℚ) (m : Metric) : ℚ :=
  (scores m).getD 0

/-- The total weight of the metrics in use, before renormalization. -/
def usedWeightSum (scores : Metric → Option ℚ) : ℚ :=
  ((usedMetrics scores).map metricWeight).sum

/-- The renormalized weight of a metric: its fixed weight divided by the
total weight in use, so that the weights in use sum to 1. -/
def renormWeight (scores : Metric → Option ℚ) (m : Metric) : ℚ :=
  metricWeight m / usedWeightSum scores

/-- Modelled from the spec: the aggregate similarity score — the renormalized
weighted sum of the computed metric scores (spec §4.5). -/
def overallScore (scores : Metric → Option ℚ) : ℚ :=
  ((usedMetrics scores).map (fun m => metricWeight m * scoreOf scores m)).sum
    / usedWeightSum scores

/-- The core of a similarity report (spec §3, §4.5): aggregate score, the
pass/fail flag against the target, the target, the excluded metrics and the
degraded-confidence mark. -/
structure SimilarityReportCore where
  overall_score : ℚ
  meets_target : Bool
  target_score : ℚ
  excluded : List Metric
  degraded_confidence : Bool

/-- The documented default similarity target: 0.90 (spec §4.5). -/
def defaultTargetScore : ℚ := 9/10

/-- Modelled from the spec: building a similarity report (spec §4.5).
`meets_target` is true iff the aggregate reaches the configured target;
metrics that could not be computed are excluded, listed explicitly, and
mark the report with reduced confidence. -/
def checkSimilarity (scores : Metric → Option ℚ) (target : ℚ) : SimilarityReportCore :=
  { overall_score := overallScore scores
  , meets_target := decide (overallScore scores ≥ target)
  , target_score := target
  , excluded := excludedMetrics scores
  , degraded_confidence := !(excludedMetrics scores).isEmpty }

/-- `checkSimilarity` at the documented default target of 0.90. -/
def checkSimilarityDefault (scores : Metric → Option ℚ) : SimilarityReportCore :=
  checkSimilarity scores defaultTargetScore

/-- A concrete degraded run: the semantic metric unavailable, the other four
computed. -/
def sampleScores : Metric → Option ℚ
  | .semantic => none
  | _ => some (9/10)

/-! ### IDF element trees (data model of spec §3; the backend IDF source is
not in the repository snapshot, so the model follows the spec and the
serialized shapes of spec §6) -/

mutual
/-- Modelled from the spec: an IDF `Element` (spec §3): id unique within the
document, a type tag from the closed `ElementType` set, content, class list,
a stable `order` index among siblings, weak `Asset` references by id, and
ordered owned children.  (Style bags, animations and platform data carry no
invariant used by the claims and are omitted from the model.) -/
inductive Element where
  | mk (id : Nat) (etype : String) (content : String) (classes : List String)
       (order : Nat) (assetIds : List Nat) (children : ElementList)
deriving DecidableEq
/-- The ordered children of an `Element` (ownership: parent owns children,
tree only). -/
inductive ElementList where
  | nil
  | cons (e : Element) (es : ElementList)
deriving DecidableEq
end

/-- The `id` field of an element. -/
def Element.idOf : Element → Nat
  | .mk i _ _ _ _ _ _ => i

/-- The `order` field of an element. -/
def Element.orderOf : Element → Nat
  | .mk _ _ _ _ o _ _ => o

/-- The children of an element. -/
def Element.childrenOf : Element → ElementList
  | .mk _ _ _ _ _ _ ch => ch

/-- The sibling `order` values of an element list, in sequence order. -/
def ElementList.orders : ElementList → List Nat
  | .nil => []
  | .cons e es => e.orderOf :: es.orders

/-- The number of elements in an element list. -/
def ElementList.len : ElementList → Nat
  | .nil => 0
  | .cons _ es => es.len + 1

mutual
/-- All element ids of a subtree, in preorder. -/
def Element.ids : Element → List Nat
  | .mk i _ _ _ _ _ ch => i :: ch.idsList
/-- All element ids of the subtrees of an element list, in preorder. -/
def ElementList.idsList : ElementList → List Nat
  | .nil => []
  | .cons e es => e.ids ++ es.idsList
end

mutual
/-- Spec §3 invariant on one element: the `order` values of its children are
dense (`0..n-1` in sequence), recursively at every level. -/
def Element.denseOrders : Element → Bool
  | .mk _ _ _ _ _ _ ch => (ch.orders == List.range ch.len) && ch.allDense
/-- `Element.denseOrders` holding of every element of a list. -/
def ElementList.allDense : ElementList → Bool
  | .nil => true
  | .cons e es => e.denseOrders && es.allDense
end

/-- Modelled from the spec: an IDF `Page` (spec §3): title, slug,
`is_homepage` flag, the ordered roots of its element tree, and its order
among the document's pages. -/
structure Page where
  id : Nat
  title : String
  slug : String
  is_homepage : Bool
  elements : ElementList
  order : Nat
deriving DecidableEq

/-- A page satisfies the density invariant when its root elements carry dense
orders and every subtree does as well. -/
def pageDense (p : Page) : Bool :=
  (p.elements.orders == List.range p.elements.len) && p.elements.allDense

/-- Modelled from the spec: the slice of an `IDFDocument` (spec §3) the
claims are about: the ordered pages and the per-page extraction errors of
`extraction_metadata`. -/
structure IDFDocument where
  pages : List Page
  extraction_errors : List (String × String)
deriving DecidableEq

/-- All element ids of a document, page by page (spec §3: element ids are
globally unique within a document). -/
def docElementIds (d : IDFDocument) : List Nat :=
  d.pages.flatMap (fun p => p.elements.idsList)

/-- The number of pages of a document flagged as homepage. -/
def countHomepages (ps : List Page) : Nat :=
  (ps.filter (fun p => p.is_homepage)).length

/-- Modelled from the spec: the validation issues of spec §4.1 that the
modelled document slice can exhibit. -/
inductive ValidationIssue where
  | multipleHomepages
  | duplicateElementIds
  | nonDenseOrders
deriving DecidableEq

/-- Modelled from the spec: `validate(document) -> list<ValidationIssue>`
(spec §4.1).  Checks, without mutating: at most one homepage per document,
global element-id uniqueness, and dense sibling `order` values. -/
def validate (d : IDFDocument) : List ValidationIssue :=
  (if 1 < countHomepages d.pages then [ValidationIssue.multipleHomepages] else [])
    ++ (if (docElementIds d).Nodup then [] else [ValidationIssue.duplicateElementIds])
    ++ (if d.pages.all pageDense then [] else [ValidationIssue.nonDenseOrders])

/-! ### Extractor (modelled from spec §4.2; the extractor source is not in
the repository snapshot) -/

mutual
/-- A node of the rendered source page's DOM as the extractor walks it. -/
inductive DomNode where
  | node (tag : String) (text : String) (children : DomForest)
deriving DecidableEq
/-- An ordered sequence of sibling DOM nodes. -/
inductive DomForest where
  | nil
  | cons (d : DomNode) (ds : DomForest)
deriving DecidableEq
end

mutual
/-- Total number of nodes of a DOM subtree. -/
def DomNode.size : DomNode → Nat
  | .node _ _ ch => ch.sizeF + 1
/-- Total number of nodes of a DOM forest. -/
def DomForest.sizeF : DomForest → Nat
  | .nil => 0
  | .cons d ds => d.size + ds.sizeF
end

/-- Modelled from the spec: mapping a DOM tag to an IDF `ElementType` (spec
§3/§4.2: a closed set of semantic kinds; unrecognized markup falls back to
the raw `html` kind). -/
def classifyTag (tag : String) : String :=
  if tag = "div" then "container"
  else if tag = "h1" then "heading"
  else if tag = "p" then "paragraph"
  else if tag = "img" then "image"
  else if tag = "a" then "link"
  else if tag = "button" then "button"
  else if tag = "form" then "form"
  else "html"

mutual
/-- Modelled from the spec: extracting one DOM node into an `Element` (spec
§4.2).  `c` is the document-global id counter (ids are assigned in preorder,
making them globally unique); `o` is the node's order among its siblings;
the children receive dense orders `0..n-1`.  Returns the element and the
advanced counter. -/
def extractElement (c : Nat) (o : Nat) : DomNode → Element × Nat
  | .node tag text ch =>
      let r := extractForest (c + 1) 0 ch
      (Element.mk c (classifyTag tag) text [] o [] r.1, r.2)
/-- Extracting a forest of sibling DOM nodes, assigning orders `o, o+1, ...`
and threading the id counter left to right. -/
def extractForest (c : Nat) (o : Nat) : DomForest → ElementList × Nat
  | .nil => (.nil, c)
  | .cons d ds =>
      let r := extractElement c o d
      let rs := extractForest r.2 (o + 1) ds
      (.cons r.1 rs.1, rs.2)
end

/-- Number of top-level nodes of a DOM forest. -/
def DomForest.lenF : DomForest → Nat
  | .nil => 0
  | .cons _ ds => ds.lenF + 1

/-- The raw material of one fetched page: its title, slug and rendered DOM. -/
structure RawPage where
  title : String
  slug : String
  dom : DomForest
deriving DecidableEq

/-- Modelled from the spec: building a `Page` from a fetched page (spec
§4.2), threading the document-global element-id counter. -/
def extractPage (c : Nat) (isHome : Bool) (pIdx : Nat) (raw : RawPage) : Page × Nat :=
  let r := extractForest c 0 raw.dom
  ({ id := pIdx, title := raw.title, slug := raw.slug, is_homepage := isHome,
     elements := r.1, order := pIdx }, r.2)

/-- Extracting the non-root pages in crawl order, threading the id counter;
none of them is the homepage. -/
def extractPagesFrom (c : Nat) (pIdx : Nat) : List RawPage → List Page × Nat
  | [] => ([], c)
  | raw :: rest =>
      let r := extractPage c false pIdx raw
      let rs := extractPagesFrom r.2 (pIdx + 1) rest
      (r.1 :: rs.1, rs.2)

/-- The outcome of fetching and rendering one page of the source site. -/
inductive FetchOutcome where
  | success (raw : RawPage)
  | failure (msg : String)
deriving DecidableEq

/-- Modelled from the spec: the extraction stage (spec §4.2).  A failure to
load the root page is fatal and aborts extraction with a
`RootUnreachableError`; a failure on any other page is isolated — it is
recorded in `extraction_metadata.errors` with the page reference and the
crawl of the remaining pages continues.  The root page is the homepage. -/
def extractSite (fetch : String → FetchOutcome) (rootUrl : String)
    (otherUrls : List String) : Except String IDFDocument :=
  match fetch rootUrl with
  | .failure m => .error ("RootUnreachableError: " ++ m)
  | .success rootRaw =>
      let okRaws := otherUrls.filterMap (fun u =>
        match fetch u with
        | .success raw => some raw
        | .failure _ => none)
      let errs := otherUrls.filterMap (fun u =>
        match fetch u with
        | .success _ => none
        | .failure m => some (u, m))
      let r := extractPage 0 true 0 rootRaw
      let rs := extractPagesFrom r.2 1 okRaws
      .ok { pages := r.1 :: rs.1, extraction_errors := errs }

/-- Modelled from the spec: the sequence of orchestrator statuses the
extraction stage produces (spec §4.6 with §4.2's failure policy): a fatal
root failure moves `pending → extracting → failed`; otherwise the migration
proceeds to `analyzing`. -/
def extractionStatusTrace (fetch : String → FetchOutcome) (rootUrl : String)
    (otherUrls : List String) : List MigrationStatus :=
  match extractSite fetch rootUrl otherUrls with
  | .error _ => [.pending, .extracting, .failed]
  | .ok _ => [.pending, .extracting, .analyzing]

/-- The fatal error message of the extraction stage, when there is one. -/
def extractionErrorMsg (fetch : String → FetchOutcome) (rootUrl : String)
    (otherUrls : List String) : Option String :=
  match extractSite fetch rootUrl otherUrls with
  | .error m => some m
  | .ok _ => none

/-! ### Element serialization (modelled from the persisted document shape of
spec §6; the backend serializer is not in the repository snapshot) -/

/-- A JSON value, the target of element serialization. -/
inductive Json where
  | str (s : String)
  | num (n : Nat)
  | arr (xs : List Json)
  | obj (fields : List (String × Json))

mutual
/-- Modelled from the spec: serializing an `Element` to its persisted JSON
shape (spec §6: `{id, type, content, classes, children, order, assets}`
restricted to the modelled fields), with a fixed canonical field order. -/
def serializeElement : Element → Json
  | .mk i t c cl o a ch =>
      .obj [("id", .num i), ("type", .str t), ("content", .str c),
            ("classes", .arr (cl.map Json.str)), ("order", .num o),
            ("assets", .arr (a.map Json.num)),
            ("children", .arr (serializeList ch))]
/-- Serializing the children of an element, in order. -/
def serializeList : ElementList → List Json
  | .nil => []
  | .cons e es => serializeElement e :: serializeList es
end

/-- Decoding a JSON array of strings (the `classes` field). -/
def decodeStrings : List Json → Option (List String)
  | [] => some []
  | .str s :: rest =>
      match decodeStrings rest with
      | some ss => some (s :: ss)
      | none => none
  | _ => none

/-- Decoding a JSON array of numbers (the `assets` field). -/
def decodeNums : List Json → Option (List Nat)
  | [] => some []
  | .num n :: rest =>
      match decodeNums rest with
      | some ns => some (n :: ns)
      | none => none
  | _ => none

mutual
/-- Modelled from the spec: deserializing an `Element` from its persisted
JSON shape, expecting the serializer's canonical field order. -/
def deserializeElement : Json → Option Element
  | .obj [("id", .num i), ("type", .str t), ("content", .str c),
          ("classes", .arr cl), ("order", .num o),
          ("assets", .arr a), ("children", .arr ch)] =>
      match decodeStrings cl, decodeNums a, deserializeList ch with
      | some cls, some asts, some es => some (.mk i t c cls o asts es)
      | _, _, _ => none
  | _ => none
/-- Deserializing a JSON array of serialized elements. -/
def deserializeList : List Json → Option ElementList
  | [] => some .nil
  | j :: js =>
      match deserializeElement j, deserializeList js with
      | some e, some es => some (.cons e es)
      | _, _ => none
end

/-! ### Converter (modelled from spec §4.4; the converter source is not in
the repository snapshot) -/

/-- The environment a conversion run executes in: the wall-clock time and
the process's random seed.  Spec §4.4 forbids the converter to depend on
either. -/
structure ConvEnv where
  now : Nat
  seed : Nat

mutual
/-- A widget of the target platform's native tree. -/
inductive Widget where
  | mk (wid : Nat) (wtype : String) (content : String) (children : WidgetList)
deriving DecidableEq
/-- An ordered sequence of sibling widgets. -/
inductive WidgetList where
  | nil
  | cons (w : Widget) (ws : WidgetList)
deriving DecidableEq
end

/-- Modelled from the spec: the generated identifier of a widget is a
deterministic function of the source `Element` id (spec §4.4). -/
def genWidgetId (elementId : Nat) : Nat := elementId + 1000

/-- Modelled from the spec: the widget-mapping lookup keyed on
`(structural context, element type)` (spec §4.4): context matters — an
`image` inside a `gallery` converts differently from a standalone `image` —
and unsupported element types fall back to a raw-markup passthrough widget
rather than being dropped. -/
def mapWidgetType (ctx : String) (etype : String) : String :=
  if ctx = "gallery" && etype = "image" then "gallery_image_widget"
  else if etype = "image" then "image_widget"
  else if etype = "heading" then "heading_widget"
  else if etype = "paragraph" then "text_editor_widget"
  else if etype = "button" then "button_widget"
  else if etype = "container" then "section_widget"
  else "raw_html_passthrough"

mutual
/-- Modelled from the spec: converting one `Element` to a target widget
(spec §4.4).  The environment is available but, per the idempotence
requirement, never consulted; the widget id derives from the source element
id alone, and children convert in the parent's structural context. -/
def convertElement (env : ConvEnv) (ctx : String) : Element → Widget
  | .mk i t c _ _ _ ch => Widget.mk (genWidgetId i) (mapWidgetType ctx t) c (convertForest env t ch)
/-- Converting an element's children, in order. -/
def convertForest (env : ConvEnv) (ctx : String) : ElementList → WidgetList
  | .nil => .nil
  | .cons e es => .cons (convertElement env ctx e) (convertForest env ctx es)
end

/-- Modelled from the spec: converting a frozen `IDFDocument` to the target
document — each page's element roots convert in the empty context. -/
def convertDocument (env : ConvEnv) (d : IDFDocument) : List WidgetList :=
  d.pages.map (fun p => convertForest env "" p.elements)

mutual
/-- The byte-for-byte serialized form of a widget (a plain string; spec §4.4
requires repeated conversion to produce byte-identical output). -/
def serializeWidget : Widget → String
  | .mk i t c ch => "w(" ++ toString i ++ "," ++ t ++ "," ++ c ++ ",[" ++ serializeWidgets ch ++ "])"
/-- The serialized form of a widget sequence. -/
def serializeWidgets : WidgetList → String
  | .nil => ""
  | .cons w ws => serializeWidget w ++ ";" ++ serializeWidgets ws
end

/-- The serialized form of a converted document. -/
def serializeTargetDoc (ws : List WidgetList) : String :=
  String.join (ws.map (fun w => serializeWidgets w ++ "|"))

mutual
/-- All widget ids of a widget subtree, in preorder. -/
def Widget.wids : Widget → List Nat
  | .mk i _ _ ch => i :: ch.widsList
/-- All widget ids of a widget sequence, in preorder. -/
def WidgetList.widsList : WidgetList → List Nat
  | .nil => []
  | .cons w ws => w.wids ++ ws.widsList
end

/-! ### Asset deduplication store (modelled from spec §3/§4.2; the backend
asset pipeline is not in the repository snapshot) -/

/-- Modelled from the spec: the content hash of a downloaded byte stream,
used as the deduplication key (spec §3).  The model takes the hash to be
collision-free, which identifies it with the byte stream itself. -/
def contentHash (bytes : List Nat) : List Nat := bytes

/-- An asset as held in the document's flat deduplicated set: its id and the
content-hash key it was stored under. -/
structure StoredAsset where
  id : Nat
  key : List Nat
deriving DecidableEq

/-- The document-level asset set under construction during extraction,
together with the next fresh asset id. -/
structure AssetStore where
  assets : List StoredAsset
  nextId : Nat
deriving DecidableEq

/-- The id of the asset already stored under a key, if any. -/
def findAssetId (key : List Nat) : List StoredAsset → Option Nat
  | [] => none
  | a :: rest => if a.key = key then some a.id else findAssetId key rest

/-- Modelled from the spec: recording one downloaded byte stream in the
document's asset set (spec §3, §4.2): if an asset with the same content hash
already exists, its id is returned and nothing is stored or mutated;
otherwise a new asset is appended and its fresh id returned.  The returned id
is what the referring `Element` stores. -/
def insertAsset (st : AssetStore) (bytes : List Nat) : AssetStore × Nat :=
  match findAssetId (contentHash bytes) st.assets with
  | some i => (st, i)
  | none =>
      ({ assets := st.assets ++ [{ id := st.nextId, key := contentHash bytes }],
         nextId := st.nextId + 1 }, st.nextId)

/-- The number of stored assets whose key is a given content hash. -/
def countAssetsWithKey (key : List Nat) (assets : List StoredAsset) : Nat :=
  (assets.filter (fun a => a.key = key)).length

/-! ### Concrete sample inputs for the witnesses -/

/-- A one-page DOM: a heading and two paragraphs under a container. -/
def sampleDom : DomForest :=
  .cons (.node "div" ""
    (.cons (.node "h1" "Welcome" .nil)
      (.cons (.node "p" "First paragraph" .nil)
        (.cons (.node "p" "Second paragraph" .nil) .nil)))) .nil

/-- A sample raw homepage built on `sampleDom`. -/
def sampleRoot : RawPage :=
  { title := "Home", slug := "home", dom := sampleDom }

/-- A sample raw secondary page. -/
def sampleAbout : RawPage :=
  { title := "About", slug := "about", dom := .cons (.node "p" "About us" .nil) .nil }

/-- A fetch oracle where the root and the about page load and the contact
page fails: the per-page failure must stay isolated. -/
def sampleFetch : String → FetchOutcome := fun u =>
  if u = "https://example.com/" then .success sampleRoot
  else if u = "https://example.com/about" then .success sampleAbout
  else .failure ("timeout loading " ++ u)

/-- A fetch oracle where even the root page is unreachable. -/
def deadFetch : String → FetchOutcome := fun _ =>
  .failure "connection refused"

/-- A sample element tree for the serialization round trip. -/
def sampleElement : Element :=
  .mk 7 "container" "" ["hero"] 0 [3]
    (.cons (.mk 8 "heading" "Welcome" [] 0 [] .nil)
      (.cons (.mk 9 "image" "" ["img"] 1 [3] .nil) .nil))

/-- All element ids of a list of pages, page by page. -/
def pagesElementIds (ps : List Page) : List Nat :=
  ps.flatMap (fun p => p.elements.idsList)

/-- Total DOM size of a list of raw pages. -/
def totalDomSize (raws : List RawPage) : Nat :=
  (raws.map (fun r => r.dom.sizeF)).sum

/-- The non-root URLs of the sample crawl. -/
def sampleOthers : List String :=
  ["https://example.com/about", "https://example.com/contact"]

/-- The document the sample crawl extracts (the contact page fails and is
recorded; the root and about pages are extracted). -/
def sampleDoc : IDFDocument :=
  (extractSite sampleFetch "https://example.com/" sampleOthers).toOption.getD
    { pages := [], extraction_errors := [] }

/-- A malformed document with two homepage-flagged pages, for exercising
`validate`. -/
def twoHomepagesDoc : IDFDocument :=
  { pages :=
      [ { id := 0, title := "A", slug := "a", is_homepage := true, elements := .nil, order := 0 }
      , { id := 1, title := "B", slug := "b", is_homepage := true, elements := .nil, order := 1 } ]
  , extraction_errors := [] }

/-! ## Helper lemmas -/

theorem metricWeight_pos (m : Metric) : 0 < metricWeight m := by
  cases m <;> norm_num [metricWeight]

theorem sum_metricWeights_pos (l : List Metric) (h : l ≠ []) :
    0 < (l.map metricWeight).sum := by
  cases l with
  | nil => exact absurd rfl h
  | cons a t =>
    simp only [List.map_cons, List.sum_cons]
    have h1 := metricWeight_pos a
    have h2 : 0 ≤ (t.map metricWeight).sum := by
      apply List.sum_nonneg
      intro x hx
      simp only [List.mem_map] at hx
      obtain ⟨m, _, rfl⟩ := hx
      exact (metricWeight_pos m).le
    linarith

theorem sum_map_div (l : List Metric) (f : Metric → ℚ) (W : ℚ) :
    (l.map (fun m => f m / W)).sum = (l.map f).sum / W := by
  induction l with
  | nil => simp
  | cons a t ih => simp [ih, add_div]

/-! ## C4: migration status enum and orchestrator state machine -/

/-- C4: a Migration's status is one of exactly the seven source values
`pending|extracting|analyzing|converting|validating|completed|failed`
(src/types/index.ts lines 9-16), and every transition of the (spec-modelled)
orchestrator state machine moves to the next stage in pipeline order, retries
the current stage, or fails; no transition moves backwards, and `completed`
and `failed` are terminal. -/
theorem c4_status_state_machine :
    (migrationStatusValues = allStatuses.map statusString)
    ∧ (∀ s : MigrationStatus, s ∈ allStatuses)
    ∧ (∀ s t : MigrationStatus, canTransition s t = true →
        t = nextStage s ∨ t = s ∨ t = MigrationStatus.failed)
    ∧ (∀ s t : MigrationStatus, canTransition s t = true →
        s = t ∨ stageIndex s < stageIndex t)
    ∧ (∀ t : MigrationStatus,
        canTransition MigrationStatus.completed t = false
        ∧ canTransition MigrationStatus.failed t = false) := by
  refine ⟨by decide, by decide, by decide, by decide, by decide⟩

/-- C4 witness: the transition `pending → extracting` is allowed and moves
to the next stage in order. -/
theorem c4_witness :
    MigrationStatus.extracting = nextStage MigrationStatus.pending
    ∨ MigrationStatus.extracting = MigrationStatus.pending
    ∨ MigrationStatus.extracting = MigrationStatus.failed :=
  c4_status_state_machine.2.2.1 .pending .extracting (by decide)

/-! ## C9: serialized SimilarityReport shape -/

/-- C9 counterexample: the serialized `SimilarityReport` returned by
`getSimilarityReport` does not have the claimed top-level shape — its
top-level fields are `{migration_id, similarity_score, report}`, the five
claimed fields sit inside the nested `report` object, and that object also
carries an extra `details` field. -/
theorem c9_counterexample :
    similarityReportFieldNames ≠ specClaimedReportFieldNames
    ∧ "overall_score" ∉ similarityReportFieldNames
    ∧ reportObjectFieldNames ≠ specClaimedReportFieldNames
    ∧ "details" ∈ reportObjectFieldNames := by
  refine ⟨by decide, by decide, by decide, by decide⟩

/-- C9 amended: the serialized `SimilarityReport` is
`{migration_id, similarity_score, report}` whose nested `report` object has
exactly the fields `{overall_score, meets_target, target_score, scores,
details, recommendations}`, with `scores` holding the five named sub-metric
entries of shape `{score, details}`; every field the spec claims at top level
is present, but inside `report` and alongside the extra `details` field. -/
theorem c9_report_shape :
    similarityReportFieldNames = ["migration_id", "similarity_score", "report"]
    ∧ reportObjectFieldNames
        = ["overall_score", "meets_target", "target_score", "scores", "details", "recommendations"]
    ∧ similarityScoresFieldNames = ["visual", "structural", "content", "asset", "semantic"]
    ∧ metricEntryFieldNames = ["score", "details"]
    ∧ (∀ f ∈ specClaimedReportFieldNames, f ∈ reportObjectFieldNames) := by
  refine ⟨rfl, rfl, rfl, rfl, by decide⟩

/-- C9 witness: the claimed field `overall_score` is indeed one of the
nested report object's fields. -/
theorem c9_witness : "overall_score" ∈ reportObjectFieldNames :=
  c9_report_shape.2.2.2.2 "overall_score" (by decide)

/-! ## C10: dashboard similarity badge -/

/-- C10: on the dashboard migration list, the similarity percentage badge is
rendered iff `similarity_score` is present and nonzero (the JSX guard
`migration.similarity_score && ...` tests JavaScript truthiness); a
migration whose score is exactly 0 renders no similarity value, exactly like
a migration that was never scored. -/
theorem c10_similarity_badge :
    (∀ s : Option ℚ, (renderSimilarityBadge s).isSome = true ↔ ∃ v, s = some v ∧ v ≠ 0)
    ∧ renderSimilarityBadge (some 0) = none
    ∧ renderSimilarityBadge none = none
    ∧ renderSimilarityBadge (some 0) = renderSimilarityBadge none := by
  refine ⟨?_, by simp [renderSimilarityBadge, jsTruthy], rfl, by simp [renderSimilarityBadge, jsTruthy]⟩
  intro s
  cases s with
  | none => simp [renderSimilarityBadge, jsTruthy]
  | some v =>
    by_cases hv : v = 0
    · subst hv
      simp [renderSimilarityBadge, jsTruthy]
    · simp [renderSimilarityBadge, jsTruthy, hv]

/-- C10 witness: a migration scored 0.87 does get a badge. -/
theorem c10_witness : (renderSimilarityBadge (some (87/100))).isSome = true :=
  (c10_similarity_badge.1 (some (87/100))).mpr ⟨87/100, rfl, by norm_num⟩

/-! ## C2: meets_target flag -/

/-- C2: for every report produced by the (spec-modelled) similarity checker,
`meets_target` is true iff `overall_score ≥ target_score`, and the
documented default target is 0.90. -/
theorem c2_meets_target :
    (∀ (scores : Metric → Option ℚ) (target : ℚ),
        (checkSimilarity scores target).meets_target = true
          ↔ (checkSimilarity scores target).overall_score
              ≥ (checkSimilarity scores target).target_score)
    ∧ (∀ scores : Metric → Option ℚ,
        (checkSimilarityDefault scores).target_score = 9/10) := by
  constructor
  · intro scores target
    simp [checkSimilarity, decide_eq_true_iff]
  · intro scores
    simp [checkSimilarityDefault, checkSimilarity, defaultTargetScore]

/-! ## C1: metric weights, renormalization and aggregate bounds -/

/-- C1: in every report of the (spec-modelled) similarity checker, the five
metrics carry fixed weights summing to 1; uncomputable metrics are excluded
(listed in `excluded`) and the remaining weights are renormalized to sum
to 1; the aggregate `overall_score` equals the renormalized weighted sum of
the computed scores and lies in [0,1] whenever at least one metric was
computed and each computed score lies in [0,1]. -/
theorem c1_weights_renormalized (scores : Metric → Option ℚ) (target : ℚ)
    (hne : usedMetrics scores ≠ [])
    (hb : ∀ m ∈ usedMetrics scores, 0 ≤ scoreOf scores m ∧ scoreOf scores m ≤ 1) :
    ((allMetrics.map metricWeight).sum = 1)
    ∧ (((usedMetrics scores).map (renormWeight scores)).sum = 1)
    ∧ ((checkSimilarity scores target).overall_score
        = ((usedMetrics scores).map (fun m => renormWeight scores m * scoreOf scores m)).sum)
    ∧ (∀ m : Metric,
        m ∈ (checkSimilarity scores target).excluded ↔ (scores m).isNone = true)
    ∧ 0 ≤ (checkSimilarity scores target).overall_score
    ∧ (checkSimilarity scores target).overall_score ≤ 1 := by
  have hpos : 0 < usedWeightSum scores := sum_metricWeights_pos _ hne
  refine ⟨by norm_num [allMetrics, metricWeight], ?_, ?_, ?_, ?_, ?_⟩
  · have h := sum_map_div (usedMetrics scores) metricWeight (usedWeightSum scores)
    rw [show renormWeight scores = (fun m => metricWeight m / usedWeightSum scores) from rfl]
    rw [h, usedWeightSum, div_self]
    exact ne_of_gt (by rwa [usedWeightSum] at hpos)
  · simp only [checkSimilarity, overallScore, renormWeight, div_mul_eq_mul_div]
    rw [sum_map_div]
  · intro m
    simp [checkSimilarity, excludedMetrics, List.mem_filter, allMetrics]
    cases m <;> simp
  · simp only [checkSimilarity, overallScore]
    apply div_nonneg _ hpos.le
    apply List.sum_nonneg
    intro x hx
    simp only [List.mem_map] at hx
    obtain ⟨m, hm, rfl⟩ := hx
    exact mul_nonneg (metricWeight_pos m).le (hb m hm).1
  · simp only [checkSimilarity, overallScore, usedWeightSum]
    rw [div_le_one (by rwa [usedWeightSum] at hpos)]
    calc ((usedMetrics scores).map (fun m => metricWeight m * scoreOf scores m)).sum
        ≤ ((usedMetrics scores).map metricWeight).sum := by
          apply List.sum_le_sum
          intro m hm
          have h1 := (hb m hm).2
          have h2 := (metricWeight_pos m).le
          nlinarith
      _ = ((usedMetrics scores).map metricWeight).sum := rfl

/-- C1 witness: a degraded run with the semantic metric unavailable and the
four remaining scores at 0.9 — the renormalized weights sum to 1 and the
aggregate stays in [0,1]. -/
theorem c1_witness :
    (((usedMetrics sampleScores).map (renormWeight sampleScores)).sum = 1)
    ∧ 0 ≤ (checkSimilarity sampleScores defaultTargetScore).overall_score
    ∧ (checkSimilarity sampleScores defaultTargetScore).overall_score ≤ 1 := by
  have h := c1_weights_renormalized sampleScores defaultTargetScore
    (by decide)
    (by norm_num [usedMetrics, allMetrics, sampleScores, scoreOf])
  exact ⟨h.2.1, h.2.2.2.2.1, h.2.2.2.2.2⟩

/-! ## C8: asset content hash and deduplication -/

theorem findAssetId_none_count (key : List Nat) (l : List StoredAsset)
    (h : findAssetId key l = none) : countAssetsWithKey key l = 0 := by
  induction l with
  | nil => rfl
  | cons a t ih =>
    simp only [findAssetId] at h
    by_cases hk : a.key = key
    · simp [hk] at h
    · simp only [hk, if_false] at h
      simpa [countAssetsWithKey, List.filter_cons, hk] using ih h

theorem findAssetId_append_none (key : List Nat) (l l2 : List StoredAsset)
    (h : findAssetId key l = none) :
    findAssetId key (l ++ l2) = findAssetId key l2 := by
  induction l with
  | nil => rfl
  | cons a t ih =>
    simp only [findAssetId] at h ⊢
    by_cases hk : a.key = key
    · simp [hk] at h
    · simp only [hk, if_false] at h ⊢
      exact ih h

theorem countAssetsWithKey_append (key : List Nat) (l l2 : List StoredAsset) :
    countAssetsWithKey key (l ++ l2)
      = countAssetsWithKey key l + countAssetsWithKey key l2 := by
  simp [countAssetsWithKey, List.filter_append]

/-- C8 counterexample: the `Asset` interface of src/types/index.ts (lines
137-149) carries no content-hash field — there is no `content_hash` (nor
`hash`) among its declared fields, so "every Asset carries a content hash" is
false of the Asset record as declared. -/
theorem c8_counterexample :
    "content_hash" ∉ assetFieldNames ∧ "hash" ∉ assetFieldNames := by
  refine ⟨by decide, by decide⟩

/-- C8 amended: the deduplication key is a content hash computed from the
byte stream during extraction (it is not a field of the declared Asset
record).  In the spec-modelled asset store: when the same byte stream is
inserted again, the store is unchanged and the same asset id is returned —
so exactly one asset is stored for a byte stream first seen fresh and every
referring element receives the same id — and insertion never mutates
existing assets, only appends. -/
theorem c8_asset_dedup (st : AssetStore) (bytes : List Nat)
    (hfresh : findAssetId (contentHash bytes) st.assets = none) :
    countAssetsWithKey (contentHash bytes) (insertAsset st bytes).1.assets = 1
    ∧ (insertAsset (insertAsset st bytes).1 bytes).1 = (insertAsset st bytes).1
    ∧ (insertAsset (insertAsset st bytes).1 bytes).2 = (insertAsset st bytes).2
    ∧ (∃ rest, (insertAsset st bytes).1.assets = st.assets ++ rest) := by
  have h1 : insertAsset st bytes
      = ({ assets := st.assets ++ [{ id := st.nextId, key := contentHash bytes }],
           nextId := st.nextId + 1 }, st.nextId) := by
    simp [insertAsset, hfresh]
  have hfind : findAssetId (contentHash bytes)
      (st.assets ++ [{ id := st.nextId, key := contentHash bytes }]) = some st.nextId := by
    rw [findAssetId_append_none _ _ _ hfresh]
    simp [findAssetId]
  refine ⟨?_, ?_, ?_, ?_⟩
  · rw [h1]
    simp only [countAssetsWithKey_append, findAssetId_none_count _ _ hfresh]
    simp [countAssetsWithKey, List.filter_cons]
  · rw [h1]
    simp [insertAsset, hfind]
  · rw [h1]
    simp [insertAsset, hfind]
  · rw [h1]
    exact ⟨[{ id := st.nextId, key := contentHash bytes }], rfl⟩

/-- C8 witness: inserting the bytes `[1,2,3]` twice into an empty store
leaves exactly one stored asset and returns the same id both times. -/
theorem c8_witness :
    countAssetsWithKey (contentHash [1, 2, 3])
        (insertAsset { assets := [], nextId := 0 } [1, 2, 3]).1.assets = 1
    ∧ (insertAsset (insertAsset { assets := [], nextId := 0 } [1, 2, 3]).1 [1, 2, 3]).2
        = (insertAsset { assets := [], nextId := 0 } [1, 2, 3]).2 := by
  have h := c8_asset_dedup { assets := [], nextId := 0 } [1, 2, 3] (by decide)
  exact ⟨h.1, h.2.2.1⟩

/-! ## C3: converter determinism -/

mutual
theorem convertElement_env_irrel (env₁ env₂ : ConvEnv) (ctx : String) (e : Element) :
    convertElement env₁ ctx e = convertElement env₂ ctx e := by
  cases e with
  | mk i t c cl o a ch =>
    simp only [convertElement]
    rw [convertForest_env_irrel env₁ env₂ t ch]
theorem convertForest_env_irrel (env₁ env₂ : ConvEnv) (ctx : String) (es : ElementList) :
    convertForest env₁ ctx es = convertForest env₂ ctx es := by
  cases es with
  | nil => rfl
  | cons e tl =>
    simp only [convertForest]
    rw [convertElement_env_irrel env₁ env₂ ctx e, convertForest_env_irrel env₁ env₂ ctx tl]
end

mutual
theorem convertElement_wids (env : ConvEnv) (ctx : String) (e : Element) :
    (convertElement env ctx e).wids = e.ids.map genWidgetId := by
  cases e with
  | mk i t c cl o a ch =>
    simp only [convertElement, Widget.wids, Element.ids, List.map_cons]
    rw [convertForest_wids env t ch]
theorem convertForest_wids (env : ConvEnv) (ctx : String) (es : ElementList) :
    (convertForest env ctx es).widsList = es.idsList.map genWidgetId := by
  cases es with
  | nil => rfl
  | cons e tl =>
    simp only [convertForest, WidgetList.widsList, ElementList.idsList, List.map_append]
    rw [convertElement_wids env ctx e, convertForest_wids env ctx tl]
end

/-- C3: the (spec-modelled) converter is deterministic — converting the same
frozen document twice yields byte-identical serialized output, the output is
independent of the wall-clock/seed environment, and every generated widget
identifier is the fixed function `genWidgetId` of the source element's id. -/
theorem c3_converter_idempotent :
    (∀ (env : ConvEnv) (d : IDFDocument),
        serializeTargetDoc (convertDocument env d)
          = serializeTargetDoc (convertDocument env d))
    ∧ (∀ (env₁ env₂ : ConvEnv) (d : IDFDocument),
        convertDocument env₁ d = convertDocument env₂ d)
    ∧ (∀ (env₁ env₂ : ConvEnv) (d : IDFDocument),
        serializeTargetDoc (convertDocument env₁ d)
          = serializeTargetDoc (convertDocument env₂ d))
    ∧ (∀ (env : ConvEnv) (ctx : String) (e : Element),
        (convertElement env ctx e).wids = e.ids.map genWidgetId) := by
  have henv : ∀ (env₁ env₂ : ConvEnv) (d : IDFDocument),
      convertDocument env₁ d = convertDocument env₂ d := by
    intro env₁ env₂ d
    simp only [convertDocument]
    apply List.map_congr_left
    intro p _
    exact convertForest_env_irrel env₁ env₂ "" p.elements
  refine ⟨fun _ _ => rfl, henv, ?_, convertElement_wids⟩
  intro env₁ env₂ d
  rw [henv env₁ env₂ d]

/-! ## Extraction invariants (towards C5, C6, C7) -/

mutual
theorem extractElement_spec (c o : Nat) (d : DomNode) :
    (extractElement c o d).1.ids = List.range' c d.size
    ∧ (extractElement c o d).2 = c + d.size
    ∧ (extractElement c o d).1.orderOf = o
    ∧ (extractElement c o d).1.denseOrders = true := by
  cases d with
  | node tag text ch =>
    have hf := extractForest_spec (c + 1) 0 ch
    simp only [extractElement, Element.ids, Element.orderOf, Element.denseOrders,
      DomNode.size, hf.1, hf.2.1, hf.2.2.1, hf.2.2.2.1, hf.2.2.2.2]
    refine ⟨?_, by omega, ?_⟩
    · rw [← List.range'_succ]
    · simp [List.range_eq_range']
theorem extractForest_spec (c o : Nat) (ds : DomForest) :
    (extractForest c o ds).1.idsList = List.range' c ds.sizeF
    ∧ (extractForest c o ds).2 = c + ds.sizeF
    ∧ (extractForest c o ds).1.orders = List.range' o ds.lenF
    ∧ (extractForest c o ds).1.len = ds.lenF
    ∧ (extractForest c o ds).1.allDense = true := by
  cases ds with
  | nil => simp [extractForest, ElementList.idsList, ElementList.orders, ElementList.len,
      ElementList.allDense, DomForest.sizeF, DomForest.lenF]
  | cons d tl =>
    have he := extractElement_spec c o d
    have ht := extractForest_spec (extractElement c o d).2 (o + 1) tl
    rw [he.2.1] at ht
    simp only [extractForest, ElementList.idsList, ElementList.orders, ElementList.len,
      ElementList.allDense, DomForest.sizeF, DomForest.lenF,
      he.1, he.2.1, he.2.2.1, he.2.2.2, ht.1, ht.2.1, ht.2.2.1, ht.2.2.2.1, ht.2.2.2.2]
    refine ⟨?_, by omega, ?_, by trivial, by simp⟩
    · have hap := List.range'_append c d.size tl.sizeF 1
      simp only [one_mul] at hap
      rw [hap]
      congr 1
      omega
    · rw [← List.range'_succ]
end

theorem extractPage_spec (c : Nat) (hb : Bool) (i : Nat) (raw : RawPage) :
    (extractPage c hb i raw).1.elements.idsList = List.range' c raw.dom.sizeF
    ∧ (extractPage c hb i raw).2 = c + raw.dom.sizeF
    ∧ pageDense (extractPage c hb i raw).1 = true
    ∧ (extractPage c hb i raw).1.is_homepage = hb := by
  have hf := extractForest_spec c 0 raw.dom
  simp only [extractPage, pageDense, hf.1, hf.2.1, hf.2.2.1, hf.2.2.2.1, hf.2.2.2.2]
  refine ⟨by trivial, by trivial, ?_, by trivial⟩
  simp [List.range_eq_range']

theorem extractPagesFrom_spec (raws : List RawPage) (c i : Nat) :
    pagesElementIds (extractPagesFrom c i raws).1 = List.range' c (totalDomSize raws)
    ∧ (extractPagesFrom c i raws).2 = c + totalDomSize raws
    ∧ (extractPagesFrom c i raws).1.all pageDense = true
    ∧ (extractPagesFrom c i raws).1.all (fun p => !p.is_homepage) = true
    ∧ (extractPagesFrom c i raws).1.length = raws.length := by
  induction raws generalizing c i with
  | nil => simp [extractPagesFrom, pagesElementIds, totalDomSize]
  | cons raw rest ih =>
    have hp := extractPage_spec c false i raw
    have ht := ih (extractPage c false i raw).2 (i + 1)
    rw [hp.2.1] at ht
    simp only [pagesElementIds] at ht
    have htot : totalDomSize (raw :: rest) = raw.dom.sizeF + totalDomSize rest := by
      simp [totalDomSize]
    refine ⟨?_, ?_, ?_, ?_, ?_⟩
    · simp only [extractPagesFrom, pagesElementIds, List.flatMap_cons, hp.1, hp.2.1, ht.1, htot]
      have hap := List.range'_append c raw.dom.sizeF (totalDomSize rest) 1
      simp only [one_mul] at hap
      rw [hap]
      congr 1
      omega
    · simp only [extractPagesFrom, hp.2.1, ht.2.1, htot]
      omega
    · simp only [extractPagesFrom, List.all_cons, hp.2.2.1, hp.2.1, ht.2.2.1, Bool.true_and]
    · simp only [extractPagesFrom, List.all_cons, hp.2.2.2, hp.2.1, ht.2.2.2.1,
        Bool.not_false, Bool.true_and]
    · simp only [extractPagesFrom, List.length_cons, hp.2.1, ht.2.2.2.2]

theorem countHomepages_eq_zero (ps : List Page)
    (h : ps.all (fun p => !p.is_homepage) = true) : countHomepages ps = 0 := by
  induction ps with
  | nil => rfl
  | cons p rest ih =>
    simp only [List.all_cons, Bool.and_eq_true, Bool.not_eq_true'] at h
    simp [countHomepages, List.filter_cons, h.1]
    simpa [countHomepages] using ih (by simpa using h.2)

theorem extractSite_ok_spec (fetch : String → FetchOutcome) (rootUrl : String)
    (others : List String) (doc : IDFDocument)
    (h : extractSite fetch rootUrl others = .ok doc) :
    (docElementIds doc).Nodup
    ∧ doc.pages.all pageDense = true
    ∧ doc.pages ≠ []
    ∧ countHomepages doc.pages = 1
    ∧ doc.extraction_errors = others.filterMap (fun u =>
        match fetch u with
        | .success _ => none
        | .failure m => some (u, m))
    ∧ doc.pages.length = 1 + (others.filterMap (fun u =>
        match fetch u with
        | .success raw => some raw
        | .failure _ => none)).length := by
  cases hfetch : fetch rootUrl with
  | failure m => simp [extractSite, hfetch] at h
  | success rootRaw =>
    simp only [extractSite, hfetch] at h
    set okRaws := others.filterMap (fun u =>
      match fetch u with
      | .success raw => some raw
      | .failure _ => none) with hok
    have hr := extractPage_spec 0 true 0 rootRaw
    simp only [Nat.zero_add] at hr
    have hs := extractPagesFrom_spec okRaws (extractPage 0 true 0 rootRaw).2 1
    rw [hr.2.1] at hs
    simp only [pagesElementIds] at hs
    cases h
    refine ⟨?_, ?_, by simp, ?_, rfl, ?_⟩
    · simp only [docElementIds, List.flatMap_cons, hr.1, hr.2.1, hs.1]
      have hap := List.range'_append 0 rootRaw.dom.sizeF (totalDomSize okRaws) 1
      simp only [one_mul, Nat.zero_add] at hap
      rw [hap]
      exact List.nodup_range' _ _
    · simp only [List.all_cons, hr.2.2.1, hr.2.1, hs.2.2.1, Bool.true_and]
    · have h0 := countHomepages_eq_zero _ hs.2.2.2.1
      simp only [countHomepages] at h0 ⊢
      simp only [List.filter_cons, hr.2.2.2, if_true, hr.2.1, h0, List.length_cons]
    · simp only [List.length_cons, hr.2.1, hs.2.2.2.2]
      omega

/-! ## Serialization round trip (towards C7) -/

theorem decodeStrings_map (l : List String) :
    decodeStrings (l.map Json.str) = some l := by
  induction l with
  | nil => rfl
  | cons s t ih => simp [decodeStrings, ih]

theorem decodeNums_map (l : List Nat) :
    decodeNums (l.map Json.num) = some l := by
  induction l with
  | nil => rfl
  | cons n t ih => simp [decodeNums, ih]

mutual
theorem serializeElement_roundtrip (e : Element) :
    deserializeElement (serializeElement e) = some e := by
  cases e with
  | mk i t c cl o a ch =>
    simp [serializeElement, deserializeElement, decodeStrings_map, decodeNums_map,
      serializeList_roundtrip ch]
theorem serializeList_roundtrip (es : ElementList) :
    deserializeList (serializeList es) = some es := by
  cases es with
  | nil => simp [serializeList, deserializeList]
  | cons e tl =>
    simp [serializeList, deserializeList, serializeElement_roundtrip e,
      serializeList_roundtrip tl]
end

/-! ## C5: extraction failure policy -/

/-- C5: in the (spec-modelled) extractor, a root-page failure is fatal — the
migration goes `pending → extracting → failed` with a
`RootUnreachableError`-class message and never reaches `analyzing` — while a
failure on any non-root page is isolated: it is recorded in
`extraction_metadata.errors` with the page reference and every remaining
page is still crawled (one page per successful fetch plus the root). -/
theorem c5_failure_policy :
    (∀ (fetch : String → FetchOutcome) (rootUrl : String) (others : List String) (m : String),
        fetch rootUrl = .failure m →
          extractSite fetch rootUrl others = .error ("RootUnreachableError: " ++ m)
          ∧ extractionStatusTrace fetch rootUrl others
              = [MigrationStatus.pending, MigrationStatus.extracting, MigrationStatus.failed]
          ∧ MigrationStatus.analyzing ∉ extractionStatusTrace fetch rootUrl others
          ∧ extractionErrorMsg fetch rootUrl others = some ("RootUnreachableError: " ++ m))
    ∧ (∀ (fetch : String → FetchOutcome) (rootUrl : String) (others : List String)
          (doc : IDFDocument),
        extractSite fetch rootUrl others = .ok doc →
          (∀ u ∈ others, ∀ m, fetch u = .failure m → (u, m) ∈ doc.extraction_errors)
          ∧ doc.pages.length = 1 + (others.filterMap (fun u =>
              match fetch u with
              | .success raw => some raw
              | .failure _ => none)).length) := by
  constructor
  · intro fetch rootUrl others m hfail
    have hext : extractSite fetch rootUrl others = .error ("RootUnreachableError: " ++ m) := by
      simp [extractSite, hfail]
    refine ⟨hext, ?_, ?_, ?_⟩
    · simp [extractionStatusTrace, hext]
    · simp [extractionStatusTrace, hext]
    · simp [extractionErrorMsg, hext]
  · intro fetch rootUrl others doc hok
    have hspec := extractSite_ok_spec fetch rootUrl others doc hok
    refine ⟨?_, hspec.2.2.2.2.2⟩
    intro u hu m hm
    rw [hspec.2.2.2.2.1]
    exact List.mem_filterMap.mpr ⟨u, hu, by rw [hm]⟩

/-- C5 witness: the dead fetch fails the migration with a
`RootUnreachableError` before `analyzing`; the sample fetch records the
contact page's failure while extracting the root and about pages. -/
theorem c5_witness :
    extractionStatusTrace deadFetch "https://example.com/" sampleOthers
        = [MigrationStatus.pending, MigrationStatus.extracting, MigrationStatus.failed]
    ∧ ("https://example.com/contact", "timeout loading https://example.com/contact")
        ∈ sampleDoc.extraction_errors := by
  constructor
  · exact (c5_failure_policy.1 deadFetch "https://example.com/" sampleOthers
      "connection refused" rfl).2.1
  · exact (c5_failure_policy.2 sampleFetch "https://example.com/" sampleOthers sampleDoc
      (by rfl)).1 "https://example.com/contact" (by decide)
      "timeout loading https://example.com/contact" (by rfl)

/-! ## C6: homepage invariant -/

/-- C6: every document produced by a successful (spec-modelled) extraction
has at least one page and exactly one page with `is_homepage = true`, and
`validate` flags any document with more than one homepage. -/
theorem c6_homepage_invariant :
    (∀ (fetch : String → FetchOutcome) (rootUrl : String) (others : List String)
        (doc : IDFDocument),
        extractSite fetch rootUrl others = .ok doc →
          doc.pages ≠ [] ∧ countHomepages doc.pages = 1)
    ∧ (∀ d : IDFDocument, 1 < countHomepages d.pages →
        ValidationIssue.multipleHomepages ∈ validate d) := by
  constructor
  · intro fetch rootUrl others doc hok
    have hspec := extractSite_ok_spec fetch rootUrl others doc hok
    exact ⟨hspec.2.2.1, hspec.2.2.2.1⟩
  · intro d hd
    simp [validate, hd]

/-- C6 witness: the sample extraction yields exactly one homepage, and the
malformed two-homepage document is flagged by `validate`. -/
theorem c6_witness :
    countHomepages sampleDoc.pages = 1
    ∧ ValidationIssue.multipleHomepages ∈ validate twoHomepagesDoc := by
  constructor
  · exact (c6_homepage_invariant.1 sampleFetch "https://example.com/" sampleOthers sampleDoc
      (by rfl)).2
  · exact c6_homepage_invariant.2 twoHomepagesDoc (by decide)

/-! ## C7: dense sibling orders, global id uniqueness, round trip -/

/-- C7: every document produced by a successful (spec-modelled) extraction
has globally unique element ids and, in every page, sibling `order` values
forming the dense sequence `0..n-1` at every level; and
serialize-then-deserialize is the identity on elements, so the round trip
preserves every sibling `order` value. -/
theorem c7_orders_ids_roundtrip :
    (∀ (fetch : String → FetchOutcome) (rootUrl : String) (others : List String)
        (doc : IDFDocument),
        extractSite fetch rootUrl others = .ok doc →
          (docElementIds doc).Nodup ∧ doc.pages.all pageDense = true)
    ∧ (∀ e : Element, deserializeElement (serializeElement e) = some e) := by
  constructor
  · intro fetch rootUrl others doc hok
    have hspec := extractSite_ok_spec fetch rootUrl others doc hok
    exact ⟨hspec.1, hspec.2.1⟩
  · exact serializeElement_roundtrip

/-- C7 witness: the sample extraction has unique ids and dense orders, and
the sample element round-trips through serialization unchanged. -/
theorem c7_witness :
    (docElementIds sampleDoc).Nodup
    ∧ deserializeElement (serializeElement sampleElement) = some sampleElement := by
  constructor
  · exact (c7_orders_ids_roundtrip.1 sampleFetch "https://example.com/" sampleOthers sampleDoc
      (by rfl)).1
  · exact c7_orders_ids_roundtrip.2 sampleElement

end WMP
